import Mathlib

/-!
Verification of the relationship-derivation core of `elixir/relationships.py`.

The module derives relational schema (foreign-key columns, bridge tables, join
predicates) from declared relationships between entities.  We shallowly embed
the relevant Python functions as Lean definitions and prove the specified
properties about them.  Stateful Python methods become explicit
state-in/state-out functions; raised exceptions become `Except String`.
-/

namespace Elixir

/-- A column reference: a table name and a column name (SQLAlchemy `Column`
identity, as used inside foreign-key elements and join predicates). -/
structure Col where
  table : String
  name : String
deriving DecidableEq, Repr

/-- One element of a SQLAlchemy `ForeignKeyConstraint`: a local (`parent`)
column and the referenced (`column`) column. -/
structure FKElem where
  parent : Col
  column : Col
deriving DecidableEq, Repr

/-- A constraint of an existing table, as seen by `_get_join_clauses`:
`isFK` models the `isinstance(constraint, ForeignKeyConstraint)` test. -/
structure TblConstraint where
  isFK : Bool
  elements : List FKElem
deriving DecidableEq, Repr

/-- A (possibly reflected) table: its name and its constraints. -/
structure Table where
  name : String
  constraints : List TblConstraint
deriving DecidableEq, Repr

/-- A join predicate `local_col == remote_col`, recorded as the local column
key and the remote column's table and key (an SQLAlchemy binary equality
expression, `col == pk_col` or `fk.parent == fk.column`). -/
structure JoinEq where
  lname : String
  rtable : String
  rname : String
deriving DecidableEq, Repr

/-- A primary-key column of an entity: its key and its type. -/
structure PkCol where
  key : String
  type : String
deriving DecidableEq, Repr

/-- The column keyword arguments a `ManyToOne` accumulates
(`self.column_kwargs`): `none` means the keyword is absent and SQLAlchemy's
default applies (`nullable=True`, `primary_key=False`). -/
structure ColumnKwargs where
  nullable : Option Bool
  primary_key : Option Bool
  index : Option Bool
deriving DecidableEq, Repr

/-- The effective `nullable` value of a created column (SQLAlchemy's
`Column` defaults to nullable). -/
def ColumnKwargs.nullableVal (k : ColumnKwargs) : Bool :=
  k.nullable.getD true

/-- The effective `primary_key` value, as read by
`self.column_kwargs.get('primary_key', False)`. -/
def ColumnKwargs.primaryKeyVal (k : ColumnKwargs) : Bool :=
  k.primary_key.getD false

/-- A column created by the relationship layer (`Column(colname, type,
**kwargs)`). -/
structure Column where
  name : String
  type : String
  kwargs : ColumnKwargs
deriving DecidableEq, Repr

/-- A `ForeignKeyConstraint(fk_colnames, fk_refcols, name=..., onupdate=...,
ondelete=...)` value. -/
structure FKConstraint where
  name : Option String
  colnames : List String
  refcols : List String
  onupdate : Option String
  ondelete : Option String
deriving DecidableEq, Repr

/-- An entity descriptor, restricted to the fields the relationship code
reads: `tablename`, `autoload`, the ordered `primary_keys`, the optional
`schema` table option, and the entity class name. -/
structure Desc where
  tablename : String
  autoload : Bool
  primary_keys : List PkCol
  schema : Option String
  entityClassName : String
deriving DecidableEq, Repr

/-! ## The join-clause deriver (`_get_join_clauses`) -/

/-- Insert a string into an already-sorted list of strings. -/
def insertSorted (s : String) : List String → List String
  | [] => [s]
  | x :: xs => if s ≤ x then s :: x :: xs else x :: insertSorted s xs

/-- `cols.sort()` on Python strings: sort a list of column names into
ascending order (insertion sort). -/
def sortStrs (l : List String) : List String :=
  l.foldr insertSorted []

/-- Python dict assignment `m[k] = v` on an association list: replaces the
binding when the key is present, otherwise appends it. -/
def insertMap (m : List (List String × TblConstraint)) (k : List String)
    (v : TblConstraint) : List (List String × TblConstraint) :=
  match m with
  | [] => [(k, v)]
  | (k', v') :: rest =>
      if k' = k then (k, v) :: rest else (k', v') :: insertMap rest k v

/-- Key lookup in the constraint map (`cols in constraint_map`). -/
def mapHasKey (m : List (List String × TblConstraint)) (k : List String) :
    Bool :=
  m.any (fun p => p.1 == k)

/-- The constraint map of `_get_join_clauses`: for every
`ForeignKeyConstraint` of the local table whose every element references the
target table, an entry keyed by the sorted tuple of local column names. -/
def buildConstraintMap (local_table : Table) (target_name : String) :
    List (List String × TblConstraint) :=
  local_table.constraints.foldl
    (fun m c =>
      if c.isFK then
        if c.elements.all (fun fk => fk.column.table == target_name) then
          insertMap m (sortStrs (c.elements.map (fun fk => fk.parent.name))) c
        else m
      else m)
    []

/-- The join predicates of one constraint, in element order
(`fk.parent == fk.column`). -/
def constraintPreds (c : TblConstraint) : List JoinEq :=
  c.elements.map (fun fk => ⟨fk.parent.name, fk.column.table, fk.column.name⟩)

/-- Decide whether one map entry is assigned to the primary join slot:
`cols == cols1 or (cols != cols2 and not cols1 and
(cols2 in constraint_map or cols2 is None))`.  `cols2 = none` models Python's
`None` (a tuple never equals `None`, and `None in constraint_map` is false
since all keys are tuples). -/
def primarySlot (cmap : List (List String × TblConstraint))
    (cols1 : List String) (cols2 : Option (List String))
    (cols : List String) : Bool :=
  cols == cols1 ||
    (some cols != cols2 && cols1.isEmpty &&
      ((match cols2 with
        | some c2 => mapHasKey cmap c2
        | none => false) || cols2.isNone))

/-- Decide whether one map entry is assigned to the secondary join slot:
`cols == cols2 or (cols2 == () and cols1 in constraint_map)`. -/
def secondarySlot (cmap : List (List String × TblConstraint))
    (cols1 : List String) (cols2 : Option (List String))
    (cols : List String) : Bool :=
  some cols == cols2 || (cols2 == some [] && mapHasKey cmap cols1)

/-- `_get_join_clauses(local_table, local_cols1, local_cols2, target_table)`:
builds the constraint map and distributes each eligible constraint's equality
predicates to the primary or secondary join list (or neither).  The Python
function contains no `raise`: it is total. -/
def getJoinClauses (local_table : Table) (local_cols1 : List String)
    (local_cols2 : Option (List String)) (target_name : String) :
    List JoinEq × List JoinEq :=
  let cols1 := sortStrs local_cols1
  let cols2 := local_cols2.map sortStrs
  let cmap := buildConstraintMap local_table target_name
  cmap.foldl
    (fun acc entry =>
      if primarySlot cmap cols1 cols2 entry.1 then
        (acc.1 ++ constraintPreds entry.2, acc.2)
      else if secondarySlot cmap cols1 cols2 entry.1 then
        (acc.1, acc.2 ++ constraintPreds entry.2)
      else acc)
    ([], [])

/-! ## ManyToOne key creation (`ManyToOne.create_keys`) -/

/-- Modelled from the spec: `options.FKCOL_NAMEFORMAT` (the `options` module
is not among the sources).  The spec's scenario derives column `owner_id`
from relationship name `owner` and target key `id`, i.e. the default format
is `relname_key`. -/
def FKCOL_NAMEFORMAT (relname key : String) : String :=
  relname ++ "_" ++ key

/-- Modelled from the spec: `options.CONSTRAINT_NAMEFORMAT` (the `options`
module is not among the sources); the spec says the constraint is auto-named
deterministically from the owner table name and the joined column names. -/
def CONSTRAINT_NAMEFORMAT (tablename colnames : String) : String :=
  tablename ++ "_" ++ colnames ++ "_fk"

/-- The mutable state of a `ManyToOne` relationship relevant to
`create_keys`: its attribute name, the normalized explicit `colname` list,
the accumulated column/constraint keyword arguments, and the two lists the
method fills (`self.foreign_key`, `self.primaryjoin_clauses`). -/
structure M2O where
  name : String
  colname : List String
  column_kwargs : ColumnKwargs
  constraint_name : Option String
  constraint_onupdate : Option String
  constraint_ondelete : Option String
  foreign_key : List Column
  primaryjoin_clauses : List JoinEq
deriving DecidableEq, Repr

/-- `ManyToOne.__init__`: normalizes `colname` to a list, folds `required`
into `nullable`, keeps `primary_key`, and `setdefault`s `index` to true;
`foreign_key` and `primaryjoin_clauses` start empty, and no constraint
keyword arguments are set unless passed. -/
def M2O.init (name : String) (colname : List String) (required : Option Bool)
    (primary_key : Option Bool) (user_kwargs : ColumnKwargs) : M2O :=
  let ck1 : ColumnKwargs :=
    { user_kwargs with
        nullable := match required with
          | some r => some (!r)
          | none => user_kwargs.nullable }
  let ck2 : ColumnKwargs :=
    { ck1 with
        primary_key := match primary_key with
          | some p => some p
          | none => ck1.primary_key }
  let ck3 : ColumnKwargs := { ck2 with index := some (ck2.index.getD true) }
  { name := name, colname := colname, column_kwargs := ck3,
    constraint_name := none, constraint_onupdate := none,
    constraint_ondelete := none, foreign_key := [],
    primaryjoin_clauses := [] }

/-- The dotted path a foreign key references
(`"tablename.key"`, prefixed by the schema when one is set). -/
def targetPath (tgt : Desc) (key : String) : String :=
  match tgt.schema with
  | some s => s ++ "." ++ tgt.tablename ++ "." ++ key
  | none => tgt.tablename ++ "." ++ key

/-- The column name chosen for the `key_num`-th target primary-key column:
the explicit `colname` entry when one was given, otherwise
`FKCOL_NAMEFORMAT % {relname, key}`. -/
def m2oColname (rel : M2O) (key_num : Nat) (pk_col : PkCol) : String :=
  if rel.colname.isEmpty then FKCOL_NAMEFORMAT rel.name pk_col.key
  else rel.colname.getD key_num ""

/-- The outcome of `ManyToOne.create_keys`: the updated relationship state
plus the columns and constraints added to the source descriptor. -/
structure M2OOut where
  rel : M2O
  added_columns : List Column
  added_constraints : List FKConstraint
deriving DecidableEq, Repr

/-- `ManyToOne.create_keys(pk)`.  No-op when the foreign key was already
created or the `primary_key` flag does not match the pass.  On an autoloaded
source with explicit `colname`, locates the join via `_get_join_clauses` and
fails when none is found; on an autoloaded source without `colname`, does
nothing.  Otherwise creates one column per target primary-key column, a join
clause pairing each new column with its target column, and a single
foreign-key constraint. -/
def createKeysM2O (rel : M2O) (src : Desc) (src_table : Table) (tgt : Desc)
    (pk : Bool) : Except String M2OOut :=
  if ¬ rel.foreign_key.isEmpty then .ok ⟨rel, [], []⟩
  else if rel.column_kwargs.primaryKeyVal ≠ pk then .ok ⟨rel, [], []⟩
  else if src.autoload then
    if ¬ rel.colname.isEmpty then
      let pj := (getJoinClauses src_table rel.colname none tgt.tablename).1
      if pj.isEmpty then
        .error ("Couldn't find a foreign key constraint in table '" ++
          src_table.name ++ "' using the following columns: " ++
          String.intercalate ", " rel.colname ++ ".")
      else .ok ⟨{ rel with primaryjoin_clauses := pj }, [], []⟩
    else .ok ⟨rel, [], []⟩
  else
    let pks := tgt.primary_keys
    if ¬ rel.colname.isEmpty ∧ rel.colname.length ≠ pks.length then
      .error ("The number of column names provided in the colname keyword " ++
        "argument of the '" ++ rel.name ++ "' relationship is not the same " ++
        "as the number of columns of the primary key of the target.")
    else if pks.isEmpty then
      .error ("No primary key found in target table ('" ++ tgt.tablename ++
        "') for the '" ++ rel.name ++ "' relationship.")
    else
      let cols : List Column := pks.enum.map
        (fun p => ⟨m2oColname rel p.1 p.2, p.2.type, rel.column_kwargs⟩)
      let joins : List JoinEq := pks.enum.map
        (fun p => ⟨m2oColname rel p.1 p.2, tgt.tablename, p.2.key⟩)
      let fk_colnames := cols.map (·.name)
      let fk_refcols := pks.map (fun c => targetPath tgt c.key)
      let cname := match rel.constraint_name with
        | some n => n
        | none =>
            CONSTRAINT_NAMEFORMAT src.tablename
              (String.intercalate "_" fk_colnames)
      .ok ⟨{ rel with
               foreign_key := rel.foreign_key ++ cols,
               primaryjoin_clauses := rel.primaryjoin_clauses ++ joins },
           cols,
           [⟨some cname, fk_colnames, fk_refcols,
             rel.constraint_onupdate, rel.constraint_ondelete⟩]⟩

/-! ## Inverse resolution (`Relationship.inverse`) -/

/-- The four concrete relationship classes. -/
inductive RelKind
  | manyToOne
  | oneToMany
  | oneToOne
  | manyToMany
deriving DecidableEq, Repr

/-- One relationship descriptor, restricted to the fields inverse
resolution reads: an identity (`id`, standing for the Python object), the
attribute `name`, the owning entity's name, the target entity's name, the
optional explicit `inverse` keyword, the kind, and (for `ManyToMany`) the
explicit `tablename` keyword. -/
structure Rel where
  id : Nat
  name : String
  entity : String
  target : String
  inverse_name : Option String
  kind : RelKind
  user_tablename : Option String
deriving DecidableEq, Repr

/-- `match_type_of` by kind: `ManyToOne` matches `OneToMany` and `OneToOne`;
`OneToOne` (and, by inheritance, `OneToMany`) matches `ManyToOne`;
`ManyToMany` matches `ManyToMany`; the base class matches nothing. -/
def matchTypeOf (k other : RelKind) : Bool :=
  match k with
  | .manyToOne => other == .oneToMany || other == .oneToOne
  | .oneToOne => other == .manyToOne
  | .oneToMany => other == .manyToOne
  | .manyToMany => other == .manyToMany

/-- `Relationship.is_inverse(other)` (with the `ManyToMany` refinement):
distinct objects, compatible kinds, entities cross-referencing each other,
any explicit inverse name on either side naming the other, and — for
many-to-many pairs — equal or both-absent explicit table names. -/
def isInverse (a b : Rel) : Bool :=
  b.id != a.id &&
  matchTypeOf a.kind b.kind &&
  a.entity == b.target &&
  b.entity == a.target &&
  (a.inverse_name == some b.name || a.inverse_name == none) &&
  (b.inverse_name == some a.name || b.inverse_name == none) &&
  (if a.kind == .manyToMany then
     a.user_tablename == b.user_tablename ||
       (a.user_tablename == none && b.user_tablename == none)
   else true)

/-- An entity known to the build: its name followed by the names of its
parent entities, in method-resolution order. -/
structure EntityDef where
  name : String
  chain : List String
deriving DecidableEq, Repr

/-- The build-time world: every declared relationship, the entity table, and
the `_inverse` caches as an association list from relationship id to
relationship id (most recent binding first, like attribute assignment). -/
structure World where
  rels : List Rel
  entities : List EntityDef
  cache : List (Nat × Nat)
deriving DecidableEq, Repr

/-- Look up a relationship's cached `_inverse`. -/
def cacheLookup (c : List (Nat × Nat)) (i : Nat) : Option Nat :=
  match c.find? (fun p => p.1 == i) with
  | some p => some p.2
  | none => none

/-- The ancestry chain of an entity (itself first). -/
def chainOf (w : World) (ename : String) : List String :=
  match w.entities.find? (fun e => e.name == ename) with
  | some e => e.chain
  | none => [ename]

/-- Modelled from the spec: `EntityDescriptor.find_relationship` (module
`entity.py` is not among the sources).  Per the spec, an explicit inverse
name is looked up "by name among the target's relationships (including
inherited ones)": search the entity's own relationships, then each parent
entity's, returning the first match. -/
def find_relationship (rels : List Rel) (chain : List String)
    (name : String) : Option Rel :=
  match chain with
  | [] => none
  | e :: rest =>
      match rels.find? (fun r => r.entity == e && r.name == name) with
      | some r => some r
      | none => find_relationship rels rest name

/-- Modelled from the spec: `EntityDescriptor.get_inverse_relation` / the
Inverse Matcher (module `entity.py` is not among the sources).  Per the
spec, it enumerates the target entity's relationship descriptors, filters to
the valid inverses, returns the unique one, `none` when there is none, and
fails with an ambiguity error when several remain. -/
def get_inverse_relation (w : World) (a : Rel) : Except String (Option Rel) :=
  match (w.rels.filter (fun r => r.entity == a.target)).filter
      (fun r => isInverse a r) with
  | [] => .ok none
  | [r] => .ok (some r)
  | _ => .error ("Several relationships as inverse of the '" ++ a.name ++
      "' relation in entity '" ++ a.entity ++ "' were found.")

/-- `Relationship.inverse` (the property getter): returns the cached inverse
when set; otherwise computes one — by explicit-name lookup (failing when the
name is absent, asserting kind compatibility) or via the inverse matcher —
and, when a counterpart is found, caches both directions
(`self._inverse = inverse; inverse._inverse = self`, each assignment
overwriting any previous cache entry).  Returns the updated world and the
inverse's id (`none` when there is no inverse). -/
def resolveInverse (w : World) (a : Rel) :
    Except String (World × Option Nat) :=
  match cacheLookup w.cache a.id with
  | some b => .ok (w, some b)
  | none =>
      let found : Except String (Option Rel) :=
        match a.inverse_name with
        | some iname =>
            match find_relationship w.rels (chainOf w a.target) iname with
            | none => .error ("Couldn't find a relationship named '" ++
                iname ++ "' in entity '" ++ a.target ++
                "' or its parent entities.")
            | some inv =>
                if matchTypeOf a.kind inv.kind then .ok (some inv)
                else .error "AssertionError: self.match_type_of(inverse)"
        | none => get_inverse_relation w a
      match found with
      | .error e => .error e
      | .ok none => .ok (w, none)
      | .ok (some inv) =>
          .ok ({ w with cache := (inv.id, a.id) :: (a.id, inv.id) :: w.cache },
               some inv.id)

/-- `OneToOne.create_keys` (inherited unchanged by `OneToMany`): resolves
the inverse and fails when there is none; a `OneToOne`/`OneToMany` cannot be
built without a `ManyToOne` counterpart. -/
def createKeysO2O (w : World) (a : Rel) : Except String World :=
  match resolveInverse w a with
  | .error e => .error e
  | .ok (_, none) =>
      .error ("Couldn't find any relationship in '" ++ a.target ++
        "' which match as inverse of the '" ++ a.name ++
        "' relationship defined in the '" ++ a.entity ++ "' entity.")
  | .ok (w', some _) => .ok w'

/-! ## ManyToMany bridge tables (`ManyToMany.create_tables`) -/

/-- The relationship-level inputs of `ManyToMany.create_tables`: attribute
name, explicit `tablename`, the `local_side`/`remote_side` hints, and the
cascade options. -/
structure M2MInfo where
  name : String
  user_tablename : Option String
  local_side : List String
  remote_side : List String
  onupdate : Option String
  ondelete : Option String
deriving DecidableEq, Repr

/-- A many-to-many bridge table: either freshly created by this layer (name,
columns, constraints) or reflected from an existing database table. -/
inductive BridgeTable where
  | created (name : String) (columns : List Column)
      (constraints : List FKConstraint)
  | reflected (t : Table)
deriving DecidableEq, Repr

/-- The mutable state of a `ManyToMany` relationship:
`self.secondary_table`, `self.primaryjoin_clauses`,
`self.secondaryjoin_clauses`. -/
structure M2MState where
  secondary_table : Option BridgeTable
  primaryjoin_clauses : List JoinEq
  secondaryjoin_clauses : List JoinEq
deriving DecidableEq, Repr

/-- `"%s_%s" % (e1_desc.tablename, self.name)` — the owner half of the
bridge-table name, also reused for constraint names. -/
def m2mSourcePart (self : M2MInfo) (e1 : Desc) : String :=
  e1.tablename ++ "_" ++ self.name

/-- The target half of the bridge-table name: target tablename and inverse
relation name when an inverse exists, the bare target tablename otherwise. -/
def m2mTargetPart (inverseName : Option String) (e2 : Desc) : String :=
  match inverseName with
  | some invn => e2.tablename ++ "_" ++ invn
  | none => e2.tablename

/-- The bridge-table name computed by `ManyToMany.create_tables`: the
explicit `tablename` when given; otherwise `source__target`, with the two
halves swapped when an inverse exists and the owner's table name sorts
lexicographically before the target's. -/
def m2mTablename (self : M2MInfo) (inverseName : Option String)
    (e1 e2 : Desc) : String :=
  let source_part := m2mSourcePart self e1
  let target_part := m2mTargetPart inverseName e2
  match self.user_tablename with
  | some t => t
  | none =>
      if inverseName.isSome ∧ e1.tablename < e2.tablename then
        target_part ++ "__" ++ source_part
      else
        source_part ++ "__" ++ target_part

/-- One side of the fresh bridge-table construction: for each primary-key
column of the side's entity, the created column (named by the column format,
suffixed with `num+1` for self-referential pairs, with `primary_key=True`)
and the join clause `col == pk_col` recorded for self-referential pairs. -/
def m2mSideCols (colFormat : String → String → String → String)
    (selfRef : Bool) (num : Nat) (desc : Desc) : List (Column × JoinEq) :=
  desc.primary_keys.map (fun pk_col =>
    let colname0 :=
      colFormat desc.tablename pk_col.key desc.entityClassName.toLower
    let colname :=
      if selfRef then colname0 ++ toString (num + 1) else colname0
    (⟨colname, pk_col.type, ⟨none, some true, none⟩⟩,
     ⟨colname, desc.tablename, pk_col.key⟩))

/-- The foreign-key constraint of one side of a fresh bridge table. -/
def m2mSideConstraint (cols : List (Column × JoinEq)) (desc : Desc)
    (fk_name : String) (m2m : Option M2MInfo) : FKConstraint :=
  { name := some fk_name,
    colnames := cols.map (fun p => p.1.name),
    refcols := desc.primary_keys.map
      (fun pk_col => desc.tablename ++ "." ++ pk_col.key),
    onupdate := match m2m with
      | some i => i.onupdate
      | none => none,
    ondelete := match m2m with
      | some i => i.ondelete
      | none => none }

/-- `ManyToMany._reflect_table`: fails when the target entity is not also
autoloaded; loads the named table from the database; for a self-referential
relationship, requires at least one of `local_side`/`remote_side` and
derives the two join-clause lists via `_get_join_clauses`. -/
def reflectTableM2M (self : M2MInfo) (st : M2MState) (e1 e2 : Desc)
    (selfRef : Bool) (db : List Table) (tablename : String) :
    Except String M2MState :=
  if ¬ e2.autoload then
    .error ("Entity is autoloaded and its '" ++ self.name ++
      "' has_and_belongs_to_many relationship points to a target entity " ++
      "which is not autoloaded")
  else
    match db.find? (fun t => t.name == tablename) with
    | none => .error ("NoSuchTableError: " ++ tablename)
    | some t =>
        if selfRef then
          if self.local_side.isEmpty ∧ self.remote_side.isEmpty then
            .error ("Self-referential has_and_belongs_to_many " ++
              "relationships in autoloaded entities need to have at least " ++
              "one of either 'local_side' or 'remote_side' argument " ++
              "specified. The '" ++ self.name ++ "' relationship doesn't " ++
              "have either.")
          else
            let joins := getJoinClauses t self.local_side
              (some self.remote_side) e1.tablename
            .ok { st with
                    secondary_table := some (.reflected t),
                    primaryjoin_clauses := joins.1,
                    secondaryjoin_clauses := joins.2 }
        else .ok { st with secondary_table := some (.reflected t) }

/-- `"%s_fk" % source_part` — the constraint name for the owner side. -/
def m2mSourceFkName (self : M2MInfo) (e1 : Desc) : String :=
  m2mSourcePart self e1 ++ "_fk"

/-- The constraint name for the target side: `"%s_fk" % target_part` when an
inverse exists, `"%s_inverse_fk" % source_part` otherwise. -/
def m2mTargetFkName (self : M2MInfo) (inverseName : Option String)
    (e1 e2 : Desc) : String :=
  match inverseName with
  | some _ => m2mTargetPart inverseName e2 ++ "_fk"
  | none => m2mSourcePart self e1 ++ "_inverse_fk"

/-- The columns of a freshly created bridge table: the owner side's columns
followed by the target side's. -/
def freshBridgeColumns (colFormat : String → String → String → String)
    (selfRef : Bool) (e1 e2 : Desc) : List Column :=
  (m2mSideCols colFormat selfRef 0 e1).map (·.1) ++
    (m2mSideCols colFormat selfRef 1 e2).map (·.1)

/-- The two foreign-key constraints of a freshly created bridge table. -/
def freshBridgeConstraints (colFormat : String → String → String → String)
    (self : M2MInfo) (inverseName : Option String)
    (inverseInfo : Option M2MInfo) (e1 e2 : Desc) (selfRef : Bool) :
    List FKConstraint :=
  [m2mSideConstraint (m2mSideCols colFormat selfRef 0 e1) e1
     (m2mSourceFkName self e1) (some self),
   m2mSideConstraint (m2mSideCols colFormat selfRef 1 e2) e2
     (m2mTargetFkName self inverseName e1 e2) inverseInfo]

/-- The state after the fresh (non-reflected) bridge-table creation: the
created table is stored and, for self-referential pairs, the owner side's
join clauses extend `primaryjoin_clauses` and the target side's extend
`secondaryjoin_clauses`. -/
def freshBridge (colFormat : String → String → String → String)
    (self : M2MInfo) (st : M2MState) (inverseName : Option String)
    (inverseInfo : Option M2MInfo) (e1 e2 : Desc) (selfRef : Bool) :
    M2MState :=
  { st with
      secondary_table := some (.created (m2mTablename self inverseName e1 e2)
        (freshBridgeColumns colFormat selfRef e1 e2)
        (freshBridgeConstraints colFormat self inverseName inverseInfo
          e1 e2 selfRef)),
      primaryjoin_clauses :=
        st.primaryjoin_clauses ++
          (if selfRef
           then (m2mSideCols colFormat selfRef 0 e1).map (·.2) else []),
      secondaryjoin_clauses :=
        st.secondaryjoin_clauses ++
          (if selfRef
           then (m2mSideCols colFormat selfRef 1 e2).map (·.2) else []) }

/-- The tail of `ManyToMany.create_tables` (after the early returns):
computes the bridge-table name, then reflects (autoloaded owner) or freshly
creates the table, its columns and its two constraints, appending join
clauses for self-referential pairs. -/
def createTablesFreshOrReflect (colFormat : String → String → String → String)
    (self : M2MInfo) (st : M2MState) (inverseName : Option String)
    (inverseInfo : Option M2MInfo) (e1 e2 : Desc) (selfRef : Bool)
    (db : List Table) : Except String M2MState :=
  if e1.autoload then
    reflectTableM2M self st e1 e2 selfRef db
      (m2mTablename self inverseName e1 e2)
  else
    .ok (freshBridge colFormat self st inverseName inverseInfo e1 e2 selfRef)

/-- The name of a bridge table. -/
def bridgeName : BridgeTable → String
  | .created n _ _ => n
  | .reflected t => t.name

/-- `ManyToMany.create_tables`.  No-op when the bridge table is already set;
when the inverse already created its bridge table, adopts that same table
with the two join-clause lists swapped; otherwise computes the bridge-table
name and either reflects an existing table (autoloaded owner) or freshly
creates the columns (one per primary-key column of each side, all with
`primary_key=True`) and the two foreign-key constraints. -/
def createTablesM2M (colFormat : String → String → String → String)
    (self : M2MInfo) (st : M2MState) (inverse : Option (M2MInfo × M2MState))
    (e1 e2 : Desc) (selfRef : Bool) (db : List Table) :
    Except String M2MState :=
  if st.secondary_table.isSome then .ok st
  else
    match inverse with
    | some (_, ist) =>
        match ist.secondary_table with
        | some t =>
            .ok { st with
                    secondary_table := some t,
                    primaryjoin_clauses := ist.secondaryjoin_clauses,
                    secondaryjoin_clauses := ist.primaryjoin_clauses }
        | none => createTablesFreshOrReflect colFormat self st
            (inverse.map (fun p => p.1.name)) (inverse.map (fun p => p.1))
            e1 e2 selfRef db
    | none => createTablesFreshOrReflect colFormat self st none none
        e1 e2 selfRef db

/-! ## Concrete build scenarios -/

/-- A `ManyToOne` named `a` on entity `E1` targeting `E2`, no explicit
inverse. -/
def relMA : Rel := ⟨1, "a", "E1", "E2", none, .manyToOne, none⟩

/-- A `OneToMany` named `b` on `E2` targeting `E1`, no explicit inverse. -/
def relOB : Rel := ⟨2, "b", "E2", "E1", none, .oneToMany, none⟩

/-- A `OneToMany` named `c` on `E2` targeting `E1` whose `inverse` keyword
explicitly names `a`. -/
def relOC : Rel := ⟨3, "c", "E2", "E1", some "a", .oneToMany, none⟩

/-- The world holding `relMA`, `relOB`, `relOC` with all caches empty. -/
def worldABC : World :=
  ⟨[relMA, relOB, relOC], [⟨"E1", ["E1"]⟩, ⟨"E2", ["E2"]⟩], []⟩

/-- `worldABC` after resolving `relOB` (pair `a ↔ b` cached). -/
def worldABC1 : World :=
  ⟨[relMA, relOB, relOC], [⟨"E1", ["E1"]⟩, ⟨"E2", ["E2"]⟩],
   [(1, 2), (2, 1)]⟩

/-- `worldABC1` after resolving `relOC`: `a`'s cache now points at `c`,
overwriting `b`, while `b` still points at `a`. -/
def worldABC2 : World :=
  ⟨[relMA, relOB, relOC], [⟨"E1", ["E1"]⟩, ⟨"E2", ["E2"]⟩],
   [(1, 3), (3, 1), (1, 2), (2, 1)]⟩

/-- A `OneToMany` with no `ManyToOne` anywhere to serve as its inverse
(the spec's `Person.children` with `Person.parent` removed). -/
def personChildren : Rel :=
  ⟨1, "children", "Person", "Person", none, .oneToMany, none⟩

/-- The world holding only `personChildren`. -/
def worldNoInverse : World :=
  ⟨[personChildren], [⟨"Person", ["Person"]⟩], []⟩

/-- A `OneToOne` whose `inverse` keyword names a relationship that does not
exist on the target. -/
def relBadInverse : Rel := ⟨1, "x", "E1", "E2", some "y", .oneToOne, none⟩

/-- The world holding only `relBadInverse`. -/
def worldBadInverse : World :=
  ⟨[relBadInverse], [⟨"E1", ["E1"]⟩, ⟨"E2", ["E2"]⟩], []⟩

/-! ## Theorems -/

/-- C7: for `Pet.owner = ManyToOne('Person')` with `Person` having the single
primary-key column `id` and `Pet` not autoloaded, `create_keys` adds exactly
one column, named by the foreign-key name format applied to relname `owner`
and key `id` (`owner_id` under the default format), with the same type as
`Person.id`, nullable by default, and one foreign-key constraint from that
column to `Person`'s `id` column. -/
theorem pet_owner_scenario :
    ∃ out : M2OOut,
      createKeysM2O (M2O.init "owner" [] none none ⟨none, none, none⟩)
          ⟨"pet", false, [⟨"id", "Integer"⟩], none, "Pet"⟩ ⟨"pet", []⟩
          ⟨"person", false, [⟨"id", "Integer"⟩], none, "Person"⟩ false =
        .ok out ∧
      out.added_columns.map (·.name) = [FKCOL_NAMEFORMAT "owner" "id"] ∧
      FKCOL_NAMEFORMAT "owner" "id" = "owner_id" ∧
      out.added_columns.map (·.type) = ["Integer"] ∧
      out.added_columns.map (·.kwargs.nullableVal) = [true] ∧
      out.added_columns.map (·.kwargs.primaryKeyVal) = [false] ∧
      out.added_constraints.map (fun c => (c.colnames, c.refcols)) =
        [(["owner_id"], ["person.id"])] :=
  ⟨_, rfl, rfl, rfl, rfl, rfl, rfl, rfl⟩

/-- C10: for a `ManyToOne` on an autoloaded entity with no explicit
`colname`, `create_keys` returns without creating any column or constraint
and leaves both the `foreign_key` and `primaryjoin_clauses` lists empty, for
either pass, raising no error. -/
theorem autoloaded_m2o_no_colname_noop (rel : M2O) (src : Desc) (t : Table)
    (tgt : Desc) (pk : Bool)
    (hauto : src.autoload = true) (hcol : rel.colname = [])
    (hfk : rel.foreign_key = []) (hpj : rel.primaryjoin_clauses = []) :
    createKeysM2O rel src t tgt pk = .ok ⟨rel, [], []⟩ ∧
      rel.foreign_key = [] ∧ rel.primaryjoin_clauses = [] := by
  refine ⟨?_, hfk, hpj⟩
  unfold createKeysM2O
  rw [hfk, hcol, hauto]
  simp

/-- Witness for `autoloaded_m2o_no_colname_noop` at a concrete autoloaded
relationship. -/
theorem autoloaded_m2o_no_colname_noop_witness :
    createKeysM2O (M2O.init "owner" [] none none ⟨none, none, none⟩)
        ⟨"item", true, [], none, "Item"⟩ ⟨"item", []⟩
        ⟨"user", true, [⟨"user_id", "Integer"⟩], none, "User"⟩ false =
      .ok ⟨M2O.init "owner" [] none none ⟨none, none, none⟩, [], []⟩ ∧
    (M2O.init "owner" [] none none ⟨none, none, none⟩).foreign_key = [] ∧
    (M2O.init "owner" [] none none
      ⟨none, none, none⟩).primaryjoin_clauses = [] :=
  autoloaded_m2o_no_colname_noop _ _ _ _ _ rfl rfl rfl rfl

/-- C5: when a `ManyToMany`'s inverse has already created the bridge table,
`create_tables` adopts the identical table reference and takes the inverse's
`secondaryjoin_clauses` as its own `primaryjoin_clauses` and the inverse's
`primaryjoin_clauses` as its `secondaryjoin_clauses`; it creates nothing. -/
theorem m2m_second_side_adopts_swapped
    (colF : String → String → String → String)
    (self iinfo : M2MInfo) (st ist : M2MState) (e1 e2 : Desc)
    (selfRef : Bool) (db : List Table) (t : BridgeTable)
    (h1 : st.secondary_table = none) (h2 : ist.secondary_table = some t) :
    createTablesM2M colF self st (some (iinfo, ist)) e1 e2 selfRef db =
      .ok { st with
              secondary_table := some t,
              primaryjoin_clauses := ist.secondaryjoin_clauses,
              secondaryjoin_clauses := ist.primaryjoin_clauses } := by
  unfold createTablesM2M
  rw [h1]
  simp [h2]

/-- Witness for `m2m_second_side_adopts_swapped` at a concrete pair. -/
theorem m2m_second_side_adopts_swapped_witness :
    createTablesM2M (fun t _ _ => t) ⟨"articles", none, [], [], none, none⟩
        ⟨none, [], []⟩
        (some (⟨"tags", none, [], [], none, none⟩,
          ⟨some (.created "nm" [] []), [⟨"x", "t", "c"⟩], [⟨"y", "u", "d"⟩]⟩))
        ⟨"tag", false, [], none, "Tag"⟩ ⟨"article", false, [], none, "Article"⟩
        false [] =
      .ok ⟨some (.created "nm" [] []), [⟨"y", "u", "d"⟩], [⟨"x", "t", "c"⟩]⟩ :=
  m2m_second_side_adopts_swapped _ _ _ _ _ _ _ _ _ _ rfl rfl

/-- C6 counterexample: `_get_join_clauses` raises no ambiguity error.  At a
table with two foreign-key constraints both pointing at the target, no
explicit column list given (`local_cols1 = []`, `local_cols2 = None`), it
returns normally, assigning both constraints' predicates to the primary
join slot, instead of failing with an `AmbiguousJoin` error. -/
theorem get_join_clauses_no_ambiguity_error :
    getJoinClauses
        ⟨"bridge",
         [⟨true, [⟨⟨"bridge", "a"⟩, ⟨"person", "id"⟩⟩]⟩,
          ⟨true, [⟨⟨"bridge", "b"⟩, ⟨"person", "id"⟩⟩]⟩]⟩
        [] none "person" =
      ([⟨"a", "person", "id"⟩, ⟨"b", "person", "id"⟩], []) := rfl

theorem sortStrs_nil : sortStrs [] = [] := rfl

theorem primarySlot_empty_none (cmap : List (List String × TblConstraint))
    (cols : List String) : primarySlot cmap [] none cols = true := by
  unfold primarySlot
  simp

theorem foldl_append_preds :
    ∀ (l : List (List String × TblConstraint))
      (acc : List JoinEq × List JoinEq),
      l.foldl
        (fun acc entry => (acc.1 ++ constraintPreds entry.2, acc.2)) acc =
      (acc.1 ++ l.flatMap (fun e => constraintPreds e.2), acc.2) := by
  intro l
  induction l with
  | nil => intro acc; simp
  | cons e rest ih =>
      intro acc
      rw [List.foldl_cons, ih, List.flatMap_cons, List.append_assoc]

theorem joinFold_empty_none (cmap : List (List String × TblConstraint))
    (l : List (List String × TblConstraint))
    (acc : List JoinEq × List JoinEq) :
    l.foldl
      (fun acc entry =>
        if primarySlot cmap [] none entry.1 then
          (acc.1 ++ constraintPreds entry.2, acc.2)
        else if secondarySlot cmap [] none entry.1 then
          (acc.1, acc.2 ++ constraintPreds entry.2)
        else acc) acc =
    (acc.1 ++ l.flatMap (fun e => constraintPreds e.2), acc.2) := by
  have h : (fun (acc : List JoinEq × List JoinEq)
      (entry : List String × TblConstraint) =>
        if primarySlot cmap [] none entry.1 then
          (acc.1 ++ constraintPreds entry.2, acc.2)
        else if secondarySlot cmap [] none entry.1 then
          (acc.1, acc.2 ++ constraintPreds entry.2)
        else acc) =
      (fun acc entry => (acc.1 ++ constraintPreds entry.2, acc.2)) := by
    funext acc entry
    simp [primarySlot_empty_none]
  rw [h]
  exact foldl_append_preds l acc

/-- C6 amended: the join-clause deriver never fails; when no explicit local
column list is given (`local_cols1` empty and `local_cols2` absent), every
eligible foreign-key constraint of the local table is assigned to the
primary join slot — all their predicates are appended there and the
secondary join list stays empty — even when several constraints could
plausibly fill the slot. -/
theorem get_join_clauses_empty_cols_all_primary (t : Table)
    (target : String) :
    getJoinClauses t [] none target =
      ((buildConstraintMap t target).flatMap (fun e => constraintPreds e.2),
       []) := by
  unfold getJoinClauses
  simp only [sortStrs_nil, Option.map_none']
  rw [joinFold_empty_none]
  simp

theorem m2mTablename_symm (i1 i2 : M2MInfo) (e1 e2 : Desc)
    (h1 : i1.user_tablename = none) (h2 : i2.user_tablename = none)
    (hne : e1.tablename ≠ e2.tablename) :
    m2mTablename i1 (some i2.name) e1 e2 =
      m2mTablename i2 (some i1.name) e2 e1 := by
  simp only [m2mTablename, m2mSourcePart, m2mTargetPart, h1, h2,
    Option.isSome_some, true_and]
  rcases lt_or_gt_of_ne hne with h | h
  · rw [if_pos h, if_neg (not_lt.mpr h.le)]
  · rw [if_neg (not_lt.mpr h.le), if_pos h]

theorem createTablesM2M_fresh (colF : String → String → String → String)
    (self : M2MInfo) (st : M2MState)
    (inverse : Option (M2MInfo × M2MState)) (e1 e2 : Desc) (selfRef : Bool)
    (db : List Table)
    (h1 : st.secondary_table = none)
    (h2 : ∀ p, inverse = some p → p.2.secondary_table = none)
    (h3 : e1.autoload = false) :
    createTablesM2M colF self st inverse e1 e2 selfRef db =
      .ok (freshBridge colF self st (inverse.map (fun p => p.1.name))
            (inverse.map (fun p => p.1)) e1 e2 selfRef) := by
  cases inverse with
  | none =>
      unfold createTablesM2M createTablesFreshOrReflect
      rw [h1, h3]
      simp
  | some p =>
      obtain ⟨iinfo, ist⟩ := p
      have hist : ist.secondary_table = none := h2 (iinfo, ist) rfl
      unfold createTablesM2M createTablesFreshOrReflect
      rw [h1, h3]
      simp [hist]

/-- C4: for a matched pair of `ManyToMany` relationships between entities
with distinct table names and no explicit `tablename`, the bridge-table name
computed by `create_tables` is the same whichever of the two sides runs
first (the order of the two halves is fixed by lexicographic comparison of
the table names). -/
theorem m2m_bridge_name_order_independent
    (colF : String → String → String → String)
    (i1 i2 : M2MInfo) (stA stB : M2MState) (e1 e2 : Desc) (db : List Table)
    (h1 : i1.user_tablename = none) (h2 : i2.user_tablename = none)
    (hA : stA.secondary_table = none) (hB : stB.secondary_table = none)
    (auto1 : e1.autoload = false) (auto2 : e2.autoload = false)
    (hne : e1.tablename ≠ e2.tablename) :
    ∃ s1 s2 t1 t2,
      createTablesM2M colF i1 stA (some (i2, stB)) e1 e2 false db =
        .ok s1 ∧
      createTablesM2M colF i2 stB (some (i1, stA)) e2 e1 false db =
        .ok s2 ∧
      s1.secondary_table = some t1 ∧ s2.secondary_table = some t2 ∧
      bridgeName t1 = bridgeName t2 := by
  refine ⟨freshBridge colF i1 stA (some i2.name) (some i2) e1 e2 false,
          freshBridge colF i2 stB (some i1.name) (some i1) e2 e1 false,
          .created (m2mTablename i1 (some i2.name) e1 e2)
            (freshBridgeColumns colF false e1 e2)
            (freshBridgeConstraints colF i1 (some i2.name) (some i2)
              e1 e2 false),
          .created (m2mTablename i2 (some i1.name) e2 e1)
            (freshBridgeColumns colF false e2 e1)
            (freshBridgeConstraints colF i2 (some i1.name) (some i1)
              e2 e1 false),
          ?_, ?_, rfl, rfl, ?_⟩
  · exact createTablesM2M_fresh colF i1 stA (some (i2, stB)) e1 e2 false db
      hA (fun p hp => by cases hp; exact hB) auto1
  · exact createTablesM2M_fresh colF i2 stB (some (i1, stA)) e2 e1 false db
      hB (fun p hp => by cases hp; exact hA) auto2
  · show m2mTablename i1 (some i2.name) e1 e2 =
      m2mTablename i2 (some i1.name) e2 e1
    exact m2mTablename_symm i1 i2 e1 e2 h1 h2 hne

/-- Witness for `m2m_bridge_name_order_independent` on the article/tag
scenario. -/
theorem m2m_bridge_name_order_independent_witness :
    ∃ s1 s2 t1 t2,
      createTablesM2M (fun t k _ => t ++ "_" ++ k)
          ⟨"tags", none, [], [], none, none⟩ ⟨none, [], []⟩
          (some (⟨"articles", none, [], [], none, none⟩, ⟨none, [], []⟩))
          ⟨"article", false, [⟨"id", "Integer"⟩], none, "Article"⟩
          ⟨"tag", false, [⟨"id", "Integer"⟩], none, "Tag"⟩ false [] =
        .ok s1 ∧
      createTablesM2M (fun t k _ => t ++ "_" ++ k)
          ⟨"articles", none, [], [], none, none⟩ ⟨none, [], []⟩
          (some (⟨"tags", none, [], [], none, none⟩, ⟨none, [], []⟩))
          ⟨"tag", false, [⟨"id", "Integer"⟩], none, "Tag"⟩
          ⟨"article", false, [⟨"id", "Integer"⟩], none, "Article"⟩ false [] =
        .ok s2 ∧
      s1.secondary_table = some t1 ∧ s2.secondary_table = some t2 ∧
      bridgeName t1 = bridgeName t2 :=
  m2m_bridge_name_order_independent _ _ _ _ _ _ _ _ rfl rfl rfl rfl rfl rfl
    (by decide)

/-- C9: every column of a freshly created (non-reflected) many-to-many
bridge table is created with `primary_key=True`, and there is one column per
primary-key column of the owner entity plus one per primary-key column of
the target entity. -/
theorem m2m_bridge_columns_all_pk
    (colF : String → String → String → String)
    (self : M2MInfo) (st : M2MState)
    (inverse : Option (M2MInfo × M2MState)) (e1 e2 : Desc) (selfRef : Bool)
    (db : List Table)
    (h1 : st.secondary_table = none)
    (h2 : ∀ p, inverse = some p → p.2.secondary_table = none)
    (h3 : e1.autoload = false) :
    ∃ s name columns constraints,
      createTablesM2M colF self st inverse e1 e2 selfRef db = .ok s ∧
      s.secondary_table = some (.created name columns constraints) ∧
      columns.length = e1.primary_keys.length + e2.primary_keys.length ∧
      ∀ c ∈ columns, c.kwargs.primary_key = some true := by
  have hlen : (freshBridgeColumns colF selfRef e1 e2).length =
      e1.primary_keys.length + e2.primary_keys.length := by
    simp [freshBridgeColumns, m2mSideCols]
  have hpk : ∀ c ∈ freshBridgeColumns colF selfRef e1 e2,
      c.kwargs.primary_key = some true := by
    intro c hc
    rw [freshBridgeColumns, List.mem_append] at hc
    rcases hc with hc | hc <;>
      · rw [List.mem_map] at hc
        obtain ⟨pr, hpr, rfl⟩ := hc
        rw [m2mSideCols, List.mem_map] at hpr
        obtain ⟨pk_col, _, rfl⟩ := hpr
        rfl
  refine ⟨freshBridge colF self st
            (inverse.map (fun p => p.1.name))
            (inverse.map (fun p => p.1)) e1 e2 selfRef,
          m2mTablename self (inverse.map (fun p => p.1.name)) e1 e2,
          freshBridgeColumns colF selfRef e1 e2,
          freshBridgeConstraints colF self
            (inverse.map (fun p => p.1.name))
            (inverse.map (fun p => p.1)) e1 e2 selfRef,
          ?_, ?_, hlen, hpk⟩
  · exact createTablesM2M_fresh colF self st inverse e1 e2 selfRef db h1 h2 h3
  · rfl

/-- Witness for `m2m_bridge_columns_all_pk` on the article/tag scenario. -/
theorem m2m_bridge_columns_all_pk_witness :
    ∃ s name columns constraints,
      createTablesM2M (fun t k _ => t ++ "_" ++ k)
          ⟨"tags", none, [], [], none, none⟩ ⟨none, [], []⟩ none
          ⟨"article", false, [⟨"id", "Integer"⟩], none, "Article"⟩
          ⟨"tag", false, [⟨"id", "Integer"⟩], none, "Tag"⟩ false [] =
        .ok s ∧
      s.secondary_table = some (.created name columns constraints) ∧
      columns.length = 1 + 1 ∧
      ∀ c ∈ columns, c.kwargs.primary_key = some true :=
  m2m_bridge_columns_all_pk _ _ _ _ _ _ _ _ rfl (by intro p h; cases h) rfl

/-- C1: for a `ManyToOne` on a non-autoloaded entity whose target has at
least one primary-key column (and whose explicit `colname` list, if given,
has the right length), `create_keys` on the matching pass creates exactly
one foreign-key column per target primary-key column, and the derived
`primaryjoin_clauses` list pairs the `i`-th created foreign-key column with
the `i`-th target primary-key column, in primary-key declaration order. -/
theorem m2o_fk_matches_target_pk
    (rel : M2O) (src : Desc) (t : Table) (tgt : Desc) (pk : Bool)
    (hauto : src.autoload = false)
    (hfk : rel.foreign_key = [])
    (hpj : rel.primaryjoin_clauses = [])
    (hpass : rel.column_kwargs.primaryKeyVal = pk)
    (hpks : tgt.primary_keys ≠ [])
    (hcol : rel.colname = [] ∨
      rel.colname.length = tgt.primary_keys.length) :
    ∃ out : M2OOut,
      createKeysM2O rel src t tgt pk = .ok out ∧
      out.added_columns.length = tgt.primary_keys.length ∧
      out.rel.foreign_key.length = tgt.primary_keys.length ∧
      out.rel.primaryjoin_clauses.length = tgt.primary_keys.length ∧
      ∀ i, i < tgt.primary_keys.length →
        out.rel.primaryjoin_clauses.getD i ⟨"", "", ""⟩ =
          ⟨(out.rel.foreign_key.getD i
              ⟨"", "", ⟨none, none, none⟩⟩).name,
           tgt.tablename,
           (tgt.primary_keys.getD i ⟨"", ""⟩).key⟩ := by
  have hguard : ¬(rel.colname.isEmpty = false ∧
      ¬rel.colname.length = tgt.primary_keys.length) := by
    rcases hcol with hc | hc
    · intro h
      rw [hc] at h
      exact absurd h.1 (by simp)
    · intro h
      exact h.2 hc
  have hpksb : tgt.primary_keys.isEmpty = false :=
    List.isEmpty_eq_false.mpr hpks
  unfold createKeysM2O
  rw [hfk, hpj, hpass, hauto]
  simp only [List.isEmpty_nil, Bool.not_eq_true, not_true_eq_false,
    if_false, ne_eq, not_true_eq_false, Bool.false_eq_true,
    hpksb, not_false_eq_true]
  rw [if_neg hguard]
  refine ⟨_, rfl, ?_, ?_, ?_, ?_⟩
  · simp
  · simp [hfk]
  · simp [hpj]
  · intro i hi
    have hje : (tgt.primary_keys.enum.map
        (fun p => (⟨m2oColname rel p.1 p.2, tgt.tablename, p.2.key⟩ :
          JoinEq))).length = tgt.primary_keys.length := by
      simp
    have hce : (tgt.primary_keys.enum.map
        (fun p => (⟨m2oColname rel p.1 p.2, p.2.type,
          rel.column_kwargs⟩ : Column))).length =
        tgt.primary_keys.length := by
      simp
    simp only [List.nil_append]
    rw [List.getD_eq_getElem _ _ (by rw [hje]; exact hi),
      List.getD_eq_getElem _ _ (by rw [hce]; exact hi),
      List.getD_eq_getElem _ _ hi,
      List.getElem_map, List.getElem_map, List.getElem_enum]

/-- Witness for `m2o_fk_matches_target_pk` at a target with a two-column
primary key. -/
theorem m2o_fk_matches_target_pk_witness :
    ∃ out : M2OOut,
      createKeysM2O (M2O.init "owner" [] none none ⟨none, none, none⟩)
          ⟨"pet", false, [⟨"id", "Integer"⟩], none, "Pet"⟩ ⟨"pet", []⟩
          ⟨"person", false, [⟨"id", "Integer"⟩, ⟨"num", "Integer"⟩], none,
           "Person"⟩ false = .ok out ∧
      out.added_columns.length = 2 ∧
      out.rel.foreign_key.length = 2 ∧
      out.rel.primaryjoin_clauses.length = 2 ∧
      ∀ i, i < 2 →
        out.rel.primaryjoin_clauses.getD i ⟨"", "", ""⟩ =
          ⟨(out.rel.foreign_key.getD i
              ⟨"", "", ⟨none, none, none⟩⟩).name,
           "person",
           (([⟨"id", "Integer"⟩, ⟨"num", "Integer"⟩] :
              List PkCol).getD i ⟨"", ""⟩).key⟩ :=
  m2o_fk_matches_target_pk _ _ _ _ _ rfl rfl rfl rfl (by decide)
    (Or.inl rfl)

/-- C2 counterexample: resolution is not exclusive.  In `worldABC`,
resolving `b` yields `a` and caches the pair symmetrically; but afterwards
resolving `c` — a third relationship whose `inverse` keyword names `a` —
also yields `a` and overwrites `a`'s cached inverse, so `a`'s resolved
inverse becomes `c` even though `b` still holds `a`. -/
theorem inverse_not_exclusive_counterexample :
    resolveInverse worldABC relOB = .ok (worldABC1, some relMA.id) ∧
    cacheLookup worldABC1.cache relMA.id = some relOB.id ∧
    resolveInverse worldABC1 relOC = .ok (worldABC2, some relMA.id) ∧
    cacheLookup worldABC2.cache relMA.id = some relOC.id ∧
    relOC.id ≠ relOB.id :=
  ⟨rfl, rfl, rfl, rfl, by decide⟩

/-- C2 amended: when resolving `a` computes an inverse `bid` (distinct from
`a` itself), both caches point at each other immediately, and re-resolving
either side straight away returns the same pair; exclusivity, however, does
not hold in general (see the counterexample). -/
theorem inverse_symmetric_idempotent (w w' : World) (a b : Rel) (bid : Nat)
    (hc : cacheLookup w.cache a.id = none)
    (hres : resolveInverse w a = .ok (w', some bid))
    (hne : bid ≠ a.id)
    (hb : b.id = bid) :
    cacheLookup w'.cache a.id = some bid ∧
    cacheLookup w'.cache bid = some a.id ∧
    resolveInverse w' a = .ok (w', some bid) ∧
    resolveInverse w' b = .ok (w', some a.id) := by
  unfold resolveInverse at hres
  rw [hc] at hres
  cases hfd : (match a.inverse_name with
    | some iname =>
        match find_relationship w.rels (chainOf w a.target) iname with
        | none => Except.error ("Couldn't find a relationship named '" ++
            iname ++ "' in entity '" ++ a.target ++
            "' or its parent entities.")
        | some inv =>
            if matchTypeOf a.kind inv.kind then Except.ok (some inv)
            else Except.error "AssertionError: self.match_type_of(inverse)"
    | none => get_inverse_relation w a) with
  | error e => rw [hfd] at hres; cases hres
  | ok o =>
      cases o with
      | none => rw [hfd] at hres; simp at hres
      | some inv =>
          rw [hfd] at hres
          injection hres with h
          injection h with hw hopt
          injection hopt with hbid
          subst hw
          subst hbid
          have hfind1 : cacheLookup
              ((inv.id, a.id) :: (a.id, inv.id) :: w.cache) a.id =
              some inv.id := by
            unfold cacheLookup
            rw [List.find?_cons_of_neg _ (by simpa using hne),
              List.find?_cons_of_pos _ (by simp)]
          have hfind2 : cacheLookup
              ((inv.id, a.id) :: (a.id, inv.id) :: w.cache) inv.id =
              some a.id := by
            unfold cacheLookup
            rw [List.find?_cons_of_pos _ (by simp)]
          refine ⟨hfind1, hfind2, ?_, ?_⟩
          · unfold resolveInverse
            rw [show cacheLookup ({ w with cache :=
              (inv.id, a.id) :: (a.id, inv.id) :: w.cache } : World).cache
              a.id = some inv.id from hfind1]
          · unfold resolveInverse
            rw [hb]
            rw [show cacheLookup ({ w with cache :=
              (inv.id, a.id) :: (a.id, inv.id) :: w.cache } : World).cache
              inv.id = some a.id from hfind2]

/-- Witness for `inverse_symmetric_idempotent` at `worldABC`: resolving `b`
pairs it with `a` symmetrically and idempotently. -/
theorem inverse_symmetric_idempotent_witness :
    cacheLookup worldABC1.cache 2 = some 1 ∧
    cacheLookup worldABC1.cache 1 = some 2 ∧
    resolveInverse worldABC1 relOB = .ok (worldABC1, some 1) ∧
    resolveInverse worldABC1 relMA = .ok (worldABC1, some 2) :=
  inverse_symmetric_idempotent worldABC worldABC1 relOB relMA 1 rfl rfl
    (by decide) rfl

/-- C3: a `OneToOne` or `OneToMany` whose inverse resolution yields no
counterpart cannot be built: `create_keys` fails with the missing-inverse
error. -/
theorem o2o_create_keys_requires_inverse (w w' : World) (a : Rel)
    (_hkind : a.kind = .oneToOne ∨ a.kind = .oneToMany)
    (hres : resolveInverse w a = .ok (w', none)) :
    createKeysO2O w a =
      .error ("Couldn't find any relationship in '" ++ a.target ++
        "' which match as inverse of the '" ++ a.name ++
        "' relationship defined in the '" ++ a.entity ++ "' entity.") := by
  unfold createKeysO2O
  rw [hres]

/-- Witness for `o2o_create_keys_requires_inverse`: the spec's
`Person.children` scenario with `Person.parent` removed. -/
theorem o2o_create_keys_requires_inverse_witness :
    createKeysO2O worldNoInverse personChildren =
      .error ("Couldn't find any relationship in 'Person' which match as " ++
        "inverse of the 'children' relationship defined in the 'Person' " ++
        "entity.") :=
  o2o_create_keys_requires_inverse worldNoInverse worldNoInverse
    personChildren (Or.inr rfl) rfl

/-- C8: for a relationship with an explicit `inverse` name, resolution looks
the name up among the target's relationships (including inherited ones) and
fails with the inverse-not-found error when it is absent, or with an
assertion failure when the found relationship's kind is not a compatible
counterpart; the compatibility table is: `ManyToOne` matches `OneToMany` or
`OneToOne`, `OneToOne` matches `ManyToOne`, `ManyToMany` matches
`ManyToMany`. -/
theorem explicit_inverse_name_errors (w : World) (a : Rel) (iname : String)
    (hn : a.inverse_name = some iname)
    (hc : cacheLookup w.cache a.id = none) :
    (find_relationship w.rels (chainOf w a.target) iname = none →
       resolveInverse w a =
         .error ("Couldn't find a relationship named '" ++ iname ++
           "' in entity '" ++ a.target ++ "' or its parent entities.")) ∧
    (∀ inv, find_relationship w.rels (chainOf w a.target) iname = some inv →
       matchTypeOf a.kind inv.kind = false →
       resolveInverse w a =
         .error "AssertionError: self.match_type_of(inverse)") ∧
    (∀ k, matchTypeOf .manyToOne k = (k == .oneToMany || k == .oneToOne)) ∧
    (∀ k, matchTypeOf .oneToOne k = (k == .manyToOne)) ∧
    (∀ k, matchTypeOf .manyToMany k = (k == .manyToMany)) := by
  refine ⟨?_, ?_, fun _ => rfl, fun _ => rfl, fun _ => rfl⟩
  · intro hfind
    unfold resolveInverse
    rw [hc, hn]
    simp [hfind]
  · intro inv hfind hmt
    unfold resolveInverse
    rw [hc, hn]
    simp [hfind, hmt]

/-- Witness for `explicit_inverse_name_errors`: a `OneToOne` naming a
nonexistent inverse `y`. -/
theorem explicit_inverse_name_errors_witness :
    (find_relationship worldBadInverse.rels
        (chainOf worldBadInverse relBadInverse.target) "y" = none →
       resolveInverse worldBadInverse relBadInverse =
         .error ("Couldn't find a relationship named '" ++ "y" ++
           "' in entity '" ++ relBadInverse.target ++
           "' or its parent entities.")) ∧
    (∀ inv, find_relationship worldBadInverse.rels
        (chainOf worldBadInverse relBadInverse.target) "y" = some inv →
       matchTypeOf relBadInverse.kind inv.kind = false →
       resolveInverse worldBadInverse relBadInverse =
         .error "AssertionError: self.match_type_of(inverse)") ∧
    (∀ k, matchTypeOf .manyToOne k = (k == .oneToMany || k == .oneToOne)) ∧
    (∀ k, matchTypeOf .oneToOne k = (k == .manyToOne)) ∧
    (∀ k, matchTypeOf .manyToMany k = (k == .manyToMany)) :=
  explicit_inverse_name_errors worldBadInverse relBadInverse "y" rfl rfl

end Elixir
